import Mathlib

/-!
Shallow embedding of the watflow phase/task orchestration engine:
`WorkflowRunner` in src/template/main.py together with
`BaseWorkflowRunner.run_tool_subprocess` in src/watflow/runner.py, and
the phase-setting defaults of src/watflow/config.py.

The behaviour of the external world (what each spawned subprocess does,
whether a `future.result()` call raises, in which order parallel futures
complete, whether the up-front requirement/environment validation passes)
is supplied by an oracle; everything else mirrors the Python control flow
branch by branch.
-/

set_option autoImplicit false

namespace Watflow

/-- Behaviour of the external process spawned for one tool: it either
ran to completion with a return code and captured output, exceeded the
timeout (`subprocess.TimeoutExpired`), or launching it raised some other
exception whose text is `msg`. -/
inductive ProcResult where
  | completed (returncode : Int) (stdout stderr : String)
  | timedOut
  | raised (msg : String)
deriving Repr, DecidableEq

/-- Embedding of `BaseWorkflowRunner.run_tool_subprocess`
(src/watflow/runner.py, lines 92-122).  The spawned process's behaviour
is the oracle argument `res`; the returned tuple is
`(success, stdout, stderr, returncode)`, built exactly as in each of the
three Python branches (the `try` body, the `TimeoutExpired` handler and
the catch-all `Exception` handler). -/
def run_tool_subprocess (res : ProcResult) (timeout : Nat) :
    Bool × String × String × Int :=
  match res with
  | .completed rc out err => (rc == 0, out, err, rc)
  | .timedOut => (false, "", "Timed out after " ++ toString timeout ++ "s", -1)
  | .raised msg => (false, "", msg, -1)

/-- One entry of a phase's result list: the dict with keys
"tool" and "success" appended by `_run_sequential` and `_run_parallel`
in src/template/main.py. -/
structure ToolResult where
  tool : String
  success : Bool
deriving Repr, DecidableEq

/-- Outcome of one strategy call (`_run_sequential` or `_run_parallel`):
the local `results` list, the messages appended to `self.errors`, and
the exception raised, if any (`exc = some msg` models
`raise Exception(msg)`; in that case the Python caller never sees
`results`, which is a discarded local). -/
structure StratOut where
  results : List ToolResult
  errors : List String
  exc : Option String
deriving Repr, DecidableEq

/-- Python `str.strip()`: remove leading and trailing whitespace. -/
def strip (s : String) : String :=
  ⟨(((s.data.dropWhile Char.isWhitespace).reverse).dropWhile
      Char.isWhitespace).reverse⟩

/-- The error message built for a failed tool in `_run_sequential` and
`_run_parallel`: `"<tool> failed (code <rc>)"`, extended with
`": <stderr.strip()>"` when the stripped stderr is non-empty. -/
def failMsg (tool : String) (returncode : Int) (stderr : String) : String :=
  let base := tool ++ " failed (code " ++ toString returncode ++ ")"
  if strip stderr = "" then base else base ++ ": " ++ strip stderr

/-- Embedding of `WorkflowRunner._run_sequential`
(src/template/main.py, lines 144-173).  `proc` gives each tool's
subprocess behaviour.  Per tool, in listed order: run it; on success
append `(tool, true)`; on failure append the error message to the error
log and, when `critical`, raise at once (fail-fast: the remaining tools
are never consulted), otherwise append `(tool, false)` and continue. -/
def run_sequential (proc : String → ProcResult) (timeout : Nat)
    (critical : Bool) : List String → StratOut
  | [] => ⟨[], [], none⟩
  | tool :: rest =>
    let r := run_tool_subprocess (proc tool) timeout
    if r.1 then
      let o := run_sequential proc timeout critical rest
      ⟨⟨tool, true⟩ :: o.results, o.errors, o.exc⟩
    else
      let msg := failMsg tool r.2.2.2 r.2.2.1
      if critical then ⟨[], [msg], some msg⟩
      else
        let o := run_sequential proc timeout critical rest
        ⟨⟨tool, false⟩ :: o.results, msg :: o.errors, o.exc⟩

/-- The oracle for one run: `proc` is the subprocess behaviour for each
tool reference (the tool path under `self.tools_dir`), `futureExc` tells
whether `future.result()` itself raises for that tool in a parallel
phase (worker-pool failure) and with which message, `order` is the
completion order in which `as_completed` yields the futures of a
submitted tool list, and `validationOk` is the verdict of the up-front
`validate_requirements` / `validate_environment` calls in
`WorkflowRunner.run`. -/
structure Oracle where
  proc : String → ProcResult
  futureExc : String → Option String
  order : List String → List String
  validationOk : Bool

/-- Whether one tool of a parallel phase ends up successful: its future
returned (rather than raised) and the returned `success` flag is true. -/
def parSuccess (o : Oracle) (timeout : Nat) (tool : String) : Bool :=
  (o.futureExc tool).isNone && (run_tool_subprocess (o.proc tool) timeout).1

/-- The result-collection loop of `WorkflowRunner._run_parallel`
(src/template/main.py, lines 189-209), traversing the futures in
completion order: per tool, if `future.result()` raised, record
`(tool, false)` and log `"<tool> error: <e>"`; otherwise record the
tuple returned by `run_tool_subprocess`, logging the failure message
when it was unsuccessful. -/
def parCollect (o : Oracle) (timeout : Nat) :
    List String → List ToolResult × List String
  | [] => ([], [])
  | tool :: rest =>
    let acc := parCollect o timeout rest
    match o.futureExc tool with
    | some e => (⟨tool, false⟩ :: acc.1, (tool ++ " error: " ++ e) :: acc.2)
    | none =>
      let r := run_tool_subprocess (o.proc tool) timeout
      if r.1 then (⟨tool, true⟩ :: acc.1, acc.2)
      else (⟨tool, false⟩ :: acc.1, failMsg tool r.2.2.2 r.2.2.1 :: acc.2)

/-- Embedding of `WorkflowRunner._run_parallel`
(src/template/main.py, lines 175-211).  All tools are submitted to the
pool (whose bound `min(len(tools), max_workers)` has no observable
effect beyond scheduling, abstracted by the completion-order oracle) and
the results are collected in completion order `o.order tools`.  No
branch of this function raises: `exc` is always `none`. -/
def run_parallel (o : Oracle) (tools : List String)
    (max_workers timeout : Nat) : StratOut :=
  let acc := parCollect o timeout (o.order tools)
  ⟨acc.1, acc.2, none⟩

/-- A resolved phase configuration as read by `WorkflowRunner.run_phase`
(src/template/main.py, lines 101-107): `name` is mandatory
(`phase_config["name"]`), every other field carries the default used by
the corresponding `phase_config.get(...)` call, which coincides with
`DEFAULT_PHASE_SETTINGS` of src/watflow/config.py (lines 20-27); in
particular `retry` is part of the schema with default 0. -/
structure PhaseConfig where
  name : String
  tools : List String := []
  parallel : Bool := false
  max_workers : Nat := 4
  timeout : Nat := 120
  retry : Nat := 0
  critical : Bool := true
  min_success : Nat := 0
deriving Repr, DecidableEq

/-- The mutable runner state touched by the orchestration loop:
`self.results` (a `dict`, modelled as an insertion-ordered association
list) and `self.errors`. -/
structure RunnerState where
  results : List (String × List ToolResult)
  errors : List String
deriving Repr, DecidableEq

/-- Python dict assignment `d[k] = v` on an insertion-ordered
association list: overwrite in place when the key is present, append
otherwise. -/
def dictSet (d : List (String × List ToolResult)) (k : String)
    (v : List ToolResult) : List (String × List ToolResult) :=
  if d.any (fun p => p.1 == k) then
    d.map (fun p => if p.1 == k then (k, v) else p)
  else d ++ [(k, v)]

/-- `sum(1 for r in phase_results if r["success"])`. -/
def countSuccess (rs : List ToolResult) : Nat :=
  (rs.filter (fun r => r.success)).length

/-- The message of the threshold-failure exception raised by
`run_phase`: `"Only <k> tools succeeded in <name>. Minimum <m>
required."`. -/
def thresholdMsg (successful : Nat) (phase_name : String)
    (min_success : Nat) : String :=
  "Only " ++ toString successful ++ " tools succeeded in " ++ phase_name ++
    ". Minimum " ++ toString min_success ++ " required."

/-- The strategy dispatch of `run_phase` (src/template/main.py,
lines 120-123): `_run_parallel(tools, max_workers, timeout)` when
`parallel`, else `_run_sequential(tools, timeout, critical)`. -/
def phase_strategy (o : Oracle) (cfg : PhaseConfig) : StratOut :=
  if cfg.parallel then
    run_parallel o cfg.tools cfg.max_workers cfg.timeout
  else
    run_sequential o.proc cfg.timeout cfg.critical cfg.tools

/-- Embedding of `WorkflowRunner.run_phase` (src/template/main.py,
lines 91-142).  An empty tool list records an empty result and returns
without any threshold check.  Otherwise the selected strategy runs; if
it raised, the exception propagates (the phase's results are not
recorded, but the error log mutations persist).  If it returned, the
results are recorded first, then the threshold check: full success and
`successful >= min_success` both continue, anything else raises the
threshold exception.  The second component is `some msg` when the
Python call would raise `Exception(msg)`. -/
def run_phase (o : Oracle) (cfg : PhaseConfig) (st : RunnerState) :
    RunnerState × Option String :=
  if cfg.tools.isEmpty then
    ({ st with results := dictSet st.results cfg.name [] }, none)
  else
    let out := phase_strategy o cfg
    match out.exc with
    | some e => ({ st with errors := st.errors ++ out.errors }, some e)
    | none =>
      let st' : RunnerState :=
        { results := dictSet st.results cfg.name out.results,
          errors := st.errors ++ out.errors }
      let successful := countSuccess out.results
      let total := cfg.tools.length
      if successful == total then (st', none)
      else if cfg.min_success ≤ successful then (st', none)
      else (st', some (thresholdMsg successful cfg.name cfg.min_success))

/-- The phase loop of `WorkflowRunner.run` (src/template/main.py,
lines 82-83): run each phase in order; the first raised exception stops
the loop and propagates. -/
def run_phases (o : Oracle) (phases : List PhaseConfig)
    (st : RunnerState) : RunnerState × Option String :=
  match phases with
  | [] => (st, none)
  | p :: rest =>
    let r := run_phase o p st
    match r.2 with
    | none => run_phases o rest r.1
    | some _ => r

/-- Embedding of `WorkflowRunner.run` (src/template/main.py,
lines 51-89): a failed up-front validation yields exit code 1 before
any phase runs; otherwise the phases run in order and the exit code is
0 on normal completion (`_finish_success`) and 1 when an exception was
raised (`_finish_failure`).  The final `RunnerState` is returned
alongside the exit code. -/
def run (o : Oracle) (phases : List PhaseConfig) : RunnerState × Nat :=
  if o.validationOk then
    match run_phases o phases ⟨[], []⟩ with
    | (st, none) => (st, 0)
    | (st, some _) => (st, 1)
  else (⟨[], []⟩, 1)

/-- Concrete oracle in which every tool's process exits 0. -/
def oracleAllOk : Oracle :=
  ⟨fun _ => .completed 0 "" "", fun _ => none, fun l => l, true⟩

/-- Concrete oracle in which the tool named "a" exits 1 and every other
tool exits 0. -/
def oracleFailA : Oracle :=
  ⟨fun t => if t = "a" then .completed 1 "" "" else .completed 0 "" "",
   fun _ => none, fun l => l, true⟩

/-! ## General lemmas about the embedded operations -/

theorem run_sequential_noncritical_exc (proc : String → ProcResult)
    (timeout : Nat) (tools : List String) :
    (run_sequential proc timeout false tools).exc = none := by
  induction tools with
  | nil => rfl
  | cons tool rest ih =>
    by_cases h : (run_tool_subprocess (proc tool) timeout).1 <;>
      simp [run_sequential, h, ih]

theorem run_sequential_length (proc : String → ProcResult) (timeout : Nat)
    (critical : Bool) (tools : List String)
    (hexc : (run_sequential proc timeout critical tools).exc = none) :
    (run_sequential proc timeout critical tools).results.length =
      tools.length := by
  induction tools with
  | nil => rfl
  | cons tool rest ih =>
    by_cases h : (run_tool_subprocess (proc tool) timeout).1
    · simp only [run_sequential, h, if_true] at hexc ⊢
      simp [ih hexc]
    · cases hc : critical with
      | true => simp [run_sequential, h, hc] at hexc
      | false =>
        subst hc
        simp only [run_sequential, h, if_false, Bool.false_eq_true,
          if_neg] at hexc ⊢
        simp [ih hexc]

theorem run_sequential_noncritical_tools (proc : String → ProcResult)
    (timeout : Nat) (tools : List String) :
    (run_sequential proc timeout false tools).results.map
      (fun r => r.tool) = tools := by
  induction tools with
  | nil => rfl
  | cons tool rest ih =>
    by_cases h : (run_tool_subprocess (proc tool) timeout).1 <;>
      simp [run_sequential, h, ih]

theorem run_sequential_critical_exc_iff (proc : String → ProcResult)
    (timeout : Nat) (tools : List String) :
    (run_sequential proc timeout true tools).exc.isSome ↔
      ∃ t ∈ tools, (run_tool_subprocess (proc t) timeout).1 = false := by
  induction tools with
  | nil => simp [run_sequential]
  | cons tool rest ih =>
    by_cases h : (run_tool_subprocess (proc tool) timeout).1
    · simp [run_sequential, h, ih]
    · simp [run_sequential, h]

theorem parCollect_fst (o : Oracle) (timeout : Nat) (order : List String) :
    (parCollect o timeout order).1 =
      order.map (fun t => ⟨t, parSuccess o timeout t⟩) := by
  induction order with
  | nil => rfl
  | cons tool rest ih =>
    cases hf : o.futureExc tool with
    | some e => simp [parCollect, hf, parSuccess, ih]
    | none =>
      by_cases h : (run_tool_subprocess (o.proc tool) timeout).1 <;>
        simp [parCollect, hf, parSuccess, h, ih]

theorem countSuccess_eq_countP (rs : List ToolResult) :
    countSuccess rs = rs.countP (fun r => r.success) :=
  (List.countP_eq_length_filter _ _).symm

theorem countSuccess_le_length (rs : List ToolResult) :
    countSuccess rs ≤ rs.length :=
  List.length_filter_le _ rs

theorem phase_strategy_noncritical_exc (o : Oracle) (cfg : PhaseConfig)
    (h : cfg.critical = false) : (phase_strategy o cfg).exc = none := by
  by_cases hp : cfg.parallel
  · simp [phase_strategy, hp, run_parallel]
  · simp [phase_strategy, hp, h, run_sequential_noncritical_exc]

theorem phase_strategy_length (o : Oracle) (cfg : PhaseConfig)
    (hperm : cfg.parallel = true → (o.order cfg.tools).Perm cfg.tools)
    (hexc : (phase_strategy o cfg).exc = none) :
    (phase_strategy o cfg).results.length = cfg.tools.length := by
  by_cases hp : cfg.parallel
  · simp only [phase_strategy, hp, if_true, run_parallel, parCollect_fst]
    simpa using (hperm hp).length_eq
  · simp only [phase_strategy, hp, Bool.false_eq_true, if_neg,
      not_false_iff] at hexc ⊢
    exact run_sequential_length _ _ _ _ hexc

theorem run_phase_strategy_raise (o : Oracle) (cfg : PhaseConfig)
    (st : RunnerState) (e : String)
    (hne : cfg.tools ≠ [])
    (hexc : (phase_strategy o cfg).exc = some e) :
    run_phase o cfg st =
      ({ st with errors := st.errors ++ (phase_strategy o cfg).errors },
        some e) := by
  have hemp : cfg.tools.isEmpty = false := by
    simpa [List.isEmpty_iff] using hne
  simp [run_phase, hemp, hexc]

theorem run_phase_threshold_raise (o : Oracle) (cfg : PhaseConfig)
    (st : RunnerState)
    (hne : cfg.tools ≠ [])
    (hexc : (phase_strategy o cfg).exc = none)
    (hlt : countSuccess (phase_strategy o cfg).results < cfg.min_success)
    (hneq : countSuccess (phase_strategy o cfg).results ≠ cfg.tools.length) :
    run_phase o cfg st =
      ({ results := dictSet st.results cfg.name
            (phase_strategy o cfg).results,
         errors := st.errors ++ (phase_strategy o cfg).errors },
       some (thresholdMsg (countSuccess (phase_strategy o cfg).results)
          cfg.name cfg.min_success)) := by
  have hemp : cfg.tools.isEmpty = false := by
    simpa [List.isEmpty_iff] using hne
  have hle : ¬ cfg.min_success ≤ countSuccess (phase_strategy o cfg).results :=
    not_le.mpr hlt
  simp [run_phase, hemp, hexc, hneq, hle]

theorem run_phase_no_raise_of_threshold_ok (o : Oracle) (cfg : PhaseConfig)
    (st : RunnerState)
    (hne : cfg.tools ≠ [])
    (hexc : (phase_strategy o cfg).exc = none)
    (hok : cfg.min_success ≤ countSuccess (phase_strategy o cfg).results) :
    run_phase o cfg st =
      ({ results := dictSet st.results cfg.name
            (phase_strategy o cfg).results,
         errors := st.errors ++ (phase_strategy o cfg).errors }, none) := by
  have hemp : cfg.tools.isEmpty = false := by
    simpa [List.isEmpty_iff] using hne
  by_cases heq :
      countSuccess (phase_strategy o cfg).results = cfg.tools.length <;>
    simp [run_phase, hemp, hexc, heq, hok]

theorem run_phases_append_none (o : Oracle) (xs ys : List PhaseConfig)
    (st : RunnerState)
    (h : (run_phases o xs st).2 = none) :
    run_phases o (xs ++ ys) st = run_phases o ys (run_phases o xs st).1 := by
  induction xs generalizing st with
  | nil => rfl
  | cons p xs ih =>
    simp only [List.cons_append, run_phases] at h ⊢
    cases hp : (run_phase o p st).2 with
    | none =>
      rw [hp] at h
      exact ih _ h
    | some e =>
      rw [hp] at h
      have h' : (run_phase o p st).2 = none := h
      rw [hp] at h'
      exact Option.noConfusion h'

theorem run_sequential_critical_failfast (proc : String → ProcResult)
    (timeout : Nat) (head : List String) (t : String) (rest : List String)
    (hok : ∀ p ∈ head, (run_tool_subprocess (proc p) timeout).1 = true)
    (hfail : (run_tool_subprocess (proc t) timeout).1 = false) :
    run_sequential proc timeout true (head ++ t :: rest) =
      ⟨head.map (fun p => ⟨p, true⟩),
       [failMsg t (run_tool_subprocess (proc t) timeout).2.2.2
          (run_tool_subprocess (proc t) timeout).2.2.1],
       some (failMsg t (run_tool_subprocess (proc t) timeout).2.2.2
          (run_tool_subprocess (proc t) timeout).2.2.1)⟩ := by
  induction head with
  | nil => simp [run_sequential, hfail]
  | cons p head ih =>
    have hp := hok p (List.mem_cons_self p head)
    have ih' := ih (fun q hq => hok q (List.mem_cons_of_mem p hq))
    simp [run_sequential, hp, ih']

theorem run_phases_cons_some (o : Oracle) (p : PhaseConfig)
    (rest : List PhaseConfig) (st st' : RunnerState) (e : String)
    (h : run_phase o p st = (st', some e)) :
    run_phases o (p :: rest) st = (st', some e) := by
  simp [run_phases, h]

theorem run_eq_of_run_phases_some (o : Oracle) (phases : List PhaseConfig)
    (st : RunnerState) (e : String)
    (hv : o.validationOk = true)
    (h : run_phases o phases ⟨[], []⟩ = (st, some e)) :
    run o phases = (st, 1) := by
  simp [run, hv, h]

/-! ## Claim C1: non-critical threshold failure (corrected) -/

/-- C1 counterexample.  A phase with `critical = false`, one failing
tool and `min_success = 1`: the claim says the orchestrator appends a
warning and continues, the run not being aborted; the code raises the
threshold exception here, and a following phase is never reached — the
two-phase run ends with exit code 1 and no entry for the second
phase. -/
theorem claim1_counterexample :
    (run_phase oracleFailA
        { name := "p1", tools := ["a"], critical := false, min_success := 1 }
        ⟨[], []⟩).2 =
      some "Only 0 tools succeeded in p1. Minimum 1 required." ∧
    run oracleFailA
        [{ name := "p1", tools := ["a"], critical := false,
           min_success := 1 },
         { name := "p2", tools := ["b"], critical := false }] =
      (⟨[("p1", [⟨"a", false⟩])], ["a failed (code 1)"]⟩, 1) :=
  ⟨by decide, by decide⟩

/-- C1 as amended.  In `run_phase` the threshold check does not consult
`critical` at all: for every phase (here with `critical = false`, the
scope of the original claim) whose successful count is below
`min_success` and below the task count, the phase result is recorded
and then the threshold exception is raised, aborting the run; the
warning-and-continue outcome occurs only when
`successful_count ≥ min_success`. -/
theorem claim1_threshold_aborts_even_when_noncritical (o : Oracle)
    (cfg : PhaseConfig) (st : RunnerState)
    (hcrit : cfg.critical = false)
    (hne : cfg.tools ≠ [])
    (hlt : countSuccess (phase_strategy o cfg).results < cfg.min_success)
    (hneq : countSuccess (phase_strategy o cfg).results ≠
      cfg.tools.length) :
    run_phase o cfg st =
      ({ results := dictSet st.results cfg.name
            (phase_strategy o cfg).results,
         errors := st.errors ++ (phase_strategy o cfg).errors },
       some (thresholdMsg (countSuccess (phase_strategy o cfg).results)
          cfg.name cfg.min_success)) :=
  run_phase_threshold_raise o cfg st hne
    (phase_strategy_noncritical_exc o cfg hcrit) hlt hneq

/-- Witness for C1 at a concrete input. -/
theorem claim1_witness :
    ({ name := "p1", tools := ["a"], critical := false,
        min_success := 1 } : PhaseConfig).critical = false ∧
    countSuccess (phase_strategy oracleFailA
        { name := "p1", tools := ["a"], critical := false,
          min_success := 1 }).results < 1 ∧
    (run_phase oracleFailA
        { name := "p1", tools := ["a"], critical := false, min_success := 1 }
        ⟨[], []⟩).2 =
      some (thresholdMsg
        (countSuccess (phase_strategy oracleFailA
          { name := "p1", tools := ["a"], critical := false,
            min_success := 1 }).results) "p1" 1) :=
  ⟨rfl, by decide,
    congrArg Prod.snd
      (claim1_threshold_aborts_even_when_noncritical oracleFailA
        { name := "p1", tools := ["a"], critical := false, min_success := 1 }
        ⟨[], []⟩ rfl (by decide) (by decide) (by decide))⟩

/-! ## Claim C2: sequential critical fail-fast (corrected) -/

/-- C2 counterexample.  Sequential phase, `critical = true`, tools
`[a (fail), b, c]`: the claim says `attempted_count == 1` and that the
threshold check still runs afterwards on the collected outcomes.  In
the code the `raise` fires before the failing task's entry is appended,
so the internal outcome list is empty (length 0, not 1), the phase
records nothing into `self.results`, and the raised exception is the
per-task failure message, not the threshold message — the threshold
check never ran. -/
theorem claim2_counterexample :
    run_phase oracleFailA
        { name := "ph", tools := ["a", "b", "c"], critical := true }
        ⟨[], []⟩ =
      (⟨[], ["a failed (code 1)"]⟩, some "a failed (code 1)") ∧
    (run_sequential oracleFailA.proc 120 true ["a", "b", "c"]).results.length
      = 0 :=
  ⟨by decide, by decide⟩

/-- C2 as amended.  In a Sequential phase with `critical = true`, after
the first failed task no remaining task is invoked (the strategy output
over `head ++ t :: rest` equals the one over `head ++ [t]`, for every
`rest`); however the failing task's outcome is not appended — the
internal outcome list holds exactly the `head.length` successful tasks
that preceded the failure and is then discarded: `run_phase` records no
result for the phase and propagates the per-task exception, bypassing
the phase-level threshold check. -/
theorem claim2_failfast_skips_rest_and_threshold (o : Oracle)
    (timeout : Nat) (head : List String) (t : String) (rest : List String)
    (hok : ∀ p ∈ head, (run_tool_subprocess (o.proc p) timeout).1 = true)
    (hfail : (run_tool_subprocess (o.proc t) timeout).1 = false) :
    run_sequential o.proc timeout true (head ++ t :: rest) =
      run_sequential o.proc timeout true (head ++ [t]) ∧
    (run_sequential o.proc timeout true (head ++ t :: rest)).exc =
      some (failMsg t (run_tool_subprocess (o.proc t) timeout).2.2.2
        (run_tool_subprocess (o.proc t) timeout).2.2.1) ∧
    (run_sequential o.proc timeout true (head ++ t :: rest)).results.length
      = head.length ∧
    ∀ (cfg : PhaseConfig) (st : RunnerState),
      cfg.tools = head ++ t :: rest → cfg.parallel = false →
      cfg.critical = true → cfg.timeout = timeout →
      (run_phase o cfg st).1.results = st.results ∧
      (run_phase o cfg st).2.isSome = true := by
  have hmain := run_sequential_critical_failfast o.proc timeout head t rest
    hok hfail
  have hshort := run_sequential_critical_failfast o.proc timeout head t []
    hok hfail
  refine ⟨hmain.trans hshort.symm, by rw [hmain], by simp [hmain], ?_⟩
  intro cfg st htools hpar hcrit htime
  have hne : cfg.tools ≠ [] := by simp [htools]
  have hexc : (phase_strategy o cfg).exc =
      some (failMsg t (run_tool_subprocess (o.proc t) timeout).2.2.2
        (run_tool_subprocess (o.proc t) timeout).2.2.1) := by
    simp only [phase_strategy, hpar, Bool.false_eq_true, if_neg,
      not_false_iff, hcrit, htime, htools]
    rw [hmain]
  rw [run_phase_strategy_raise o cfg st _ hne hexc]
  exact ⟨rfl, rfl⟩

/-- Witness for C2 at a concrete input. -/
theorem claim2_witness :
    run_sequential oracleFailA.proc 120 true (["b"] ++ "a" :: ["c", "d"]) =
      run_sequential oracleFailA.proc 120 true (["b"] ++ ["a"]) ∧
    (run_sequential oracleFailA.proc 120 true
        (["b"] ++ "a" :: ["c", "d"])).results.length = 1 := by
  have h := claim2_failfast_skips_rest_and_threshold oracleFailA 120
    ["b"] "a" ["c", "d"] (by decide) (by decide)
  exact ⟨h.1, h.2.2.1⟩

/-! ## Claim C3: a threshold abort preserves partial progress -/

/-- C3.  When a critical phase fails its threshold (its strategy
returned normally with a successful count below `min_success` and below
the task count), the run ends immediately: the final state contains the
state accumulated over all earlier phases plus the recorded result of
the aborting phase itself, the exit code is 1, and the run's outcome is
identical to the outcome with the later phases removed — they are never
attempted. -/
theorem claim3_abort_preserves_partial_state (o : Oracle)
    (head : List PhaseConfig) (cfg : PhaseConfig)
    (rest : List PhaseConfig)
    (hv : o.validationOk = true)
    (hpre : (run_phases o head ⟨[], []⟩).2 = none)
    (hcrit : cfg.critical = true)
    (hne : cfg.tools ≠ [])
    (hexc : (phase_strategy o cfg).exc = none)
    (hlt : countSuccess (phase_strategy o cfg).results < cfg.min_success)
    (hneq : countSuccess (phase_strategy o cfg).results ≠
      cfg.tools.length) :
    run o (head ++ cfg :: rest) =
      ({ results := dictSet (run_phases o head ⟨[], []⟩).1.results
            cfg.name (phase_strategy o cfg).results,
         errors := (run_phases o head ⟨[], []⟩).1.errors ++
            (phase_strategy o cfg).errors }, 1) ∧
    run o (head ++ cfg :: rest) = run o (head ++ [cfg]) := by
  have hphase := run_phase_threshold_raise o cfg
    (run_phases o head ⟨[], []⟩).1 hne hexc hlt hneq
  have hstop : ∀ tail : List PhaseConfig,
      run_phases o (head ++ cfg :: tail) ⟨[], []⟩ =
        ({ results := dictSet (run_phases o head ⟨[], []⟩).1.results
              cfg.name (phase_strategy o cfg).results,
           errors := (run_phases o head ⟨[], []⟩).1.errors ++
              (phase_strategy o cfg).errors },
         some (thresholdMsg
            (countSuccess (phase_strategy o cfg).results)
            cfg.name cfg.min_success)) := by
    intro tail
    rw [run_phases_append_none o head (cfg :: tail) ⟨[], []⟩ hpre]
    exact run_phases_cons_some o cfg tail _ _ _ hphase
  have h1 := run_eq_of_run_phases_some o (head ++ cfg :: rest) _ _ hv
    (hstop rest)
  have h2 := run_eq_of_run_phases_some o (head ++ [cfg]) _ _ hv
    (hstop [])
  exact ⟨h1, h1.trans h2.symm⟩

/-- Witness for C3 at a concrete input: three phases, the second of
which (a critical parallel phase with one failing tool and
`min_success = 1`) aborts; the final state holds exactly the results of
phases 1 and 2 and the exit code is 1. -/
theorem claim3_witness :
    oracleFailA.validationOk = true ∧
    (run_phases oracleFailA [{ name := "p1", tools := ["b"] }]
      ⟨[], []⟩).2 = none ∧
    countSuccess (phase_strategy oracleFailA
      { name := "p2", tools := ["a"], parallel := true,
        min_success := 1 }).results < 1 ∧
    (run oracleFailA
        [{ name := "p1", tools := ["b"] },
         { name := "p2", tools := ["a"], parallel := true,
           min_success := 1 },
         { name := "p3", tools := ["b"] }] =
      ({ results := dictSet (run_phases oracleFailA
            [{ name := "p1", tools := ["b"] }] ⟨[], []⟩).1.results
            "p2" (phase_strategy oracleFailA
              { name := "p2", tools := ["a"], parallel := true,
                min_success := 1 }).results,
         errors := (run_phases oracleFailA
            [{ name := "p1", tools := ["b"] }] ⟨[], []⟩).1.errors ++
            (phase_strategy oracleFailA
              { name := "p2", tools := ["a"], parallel := true,
                min_success := 1 }).errors }, 1) ∧
    run oracleFailA
        [{ name := "p1", tools := ["b"] },
         { name := "p2", tools := ["a"], parallel := true,
           min_success := 1 },
         { name := "p3", tools := ["b"] }] =
      run oracleFailA
        [{ name := "p1", tools := ["b"] },
         { name := "p2", tools := ["a"], parallel := true,
           min_success := 1 }]) :=
  ⟨rfl, by decide, by decide,
    claim3_abort_preserves_partial_state oracleFailA
      [{ name := "p1", tools := ["b"] }]
      { name := "p2", tools := ["a"], parallel := true, min_success := 1 }
      [{ name := "p3", tools := ["b"] }]
      rfl (by decide) rfl (by decide) (by decide) (by decide) (by decide)⟩

/-! ## Claim C4: a parallel phase attempts every task -/

/-- C4.  A Parallel phase never raises, produces exactly one outcome
per listed task — the result list is the completion order itself, a
permutation of the task list, so `attempted_count = len(tools)` — its
successful count is the number of listed tasks whose invocation
succeeded, and the behaviour of a parallel `run_phase` does not depend
on the `critical` flag at all. -/
theorem claim4_parallel_attempts_all (o : Oracle) (tools : List String)
    (mw timeout : Nat)
    (hperm : (o.order tools).Perm tools) :
    (run_parallel o tools mw timeout).exc = none ∧
    (run_parallel o tools mw timeout).results.length = tools.length ∧
    countSuccess (run_parallel o tools mw timeout).results =
      tools.countP (parSuccess o timeout) ∧
    (run_parallel o tools mw timeout).results.map (fun r => r.tool) =
      o.order tools ∧
    ∀ (n : String) (ms rt : Nat) (c₁ c₂ : Bool) (st : RunnerState),
      run_phase o ⟨n, tools, true, mw, timeout, rt, c₁, ms⟩ st =
        run_phase o ⟨n, tools, true, mw, timeout, rt, c₂, ms⟩ st := by
  have hres : (run_parallel o tools mw timeout).results =
      (o.order tools).map (fun t => ⟨t, parSuccess o timeout t⟩) :=
    parCollect_fst o timeout (o.order tools)
  refine ⟨rfl, ?_, ?_, ?_, fun n ms rt c₁ c₂ st => rfl⟩
  · rw [hres, List.length_map]
    exact hperm.length_eq
  · rw [hres, countSuccess_eq_countP, List.countP_map]
    have hcomp : ((fun r : ToolResult => r.success) ∘
        (fun t => (⟨t, parSuccess o timeout t⟩ : ToolResult))) =
        parSuccess o timeout := rfl
    rw [hcomp]
    exact hperm.countP_eq _
  · rw [hres, List.map_map]
    exact List.map_id' (o.order tools)

/-- Witness for C4 at a concrete input. -/
theorem claim4_witness :
    (oracleFailA.order ["a", "b"]).Perm ["a", "b"] ∧
    ((run_parallel oracleFailA ["a", "b"] 4 120).exc = none ∧
    (run_parallel oracleFailA ["a", "b"] 4 120).results.length =
      (["a", "b"] : List String).length ∧
    countSuccess (run_parallel oracleFailA ["a", "b"] 4 120).results =
      (["a", "b"] : List String).countP (parSuccess oracleFailA 120) ∧
    (run_parallel oracleFailA ["a", "b"] 4 120).results.map
      (fun r => r.tool) = oracleFailA.order ["a", "b"] ∧
    ∀ (n : String) (ms rt : Nat) (c₁ c₂ : Bool) (st : RunnerState),
      run_phase oracleFailA ⟨n, ["a", "b"], true, 4, 120, rt, c₁, ms⟩ st =
        run_phase oracleFailA ⟨n, ["a", "b"], true, 4, 120, rt, c₂, ms⟩
          st) :=
  ⟨by decide,
    claim4_parallel_attempts_all oracleFailA ["a", "b"] 4 120 (by decide)⟩

/-! ## Claim C5: an empty phase is vacuously successful -/

/-- C5.  For every phase whose tool list is empty, whatever `critical`
and `min_success` are, `run_phase` consults no oracle at all (the
right-hand side does not mention `o`), records an empty result for the
phase, raises nothing, and the phase loop simply moves on to the next
phase with that recorded state. -/
theorem claim5_empty_phase_vacuous (o : Oracle) (cfg : PhaseConfig)
    (st : RunnerState) (h : cfg.tools = []) :
    run_phase o cfg st =
      ({ st with results := dictSet st.results cfg.name [] }, none) ∧
    ∀ rest : List PhaseConfig,
      run_phases o (cfg :: rest) st =
        run_phases o rest
          { st with results := dictSet st.results cfg.name [] } := by
  have h1 : run_phase o cfg st =
      ({ st with results := dictSet st.results cfg.name [] }, none) := by
    simp [run_phase, h]
  refine ⟨h1, fun rest => ?_⟩
  simp only [run_phases, h1]

/-- Witness for C5 at a concrete input. -/
theorem claim5_witness :
    (({ name := "empty", tools := [], critical := false,
        min_success := 3 } : PhaseConfig).tools = []) ∧
    (run_phase oracleAllOk
        { name := "empty", tools := [], critical := false, min_success := 3 }
        ⟨[], []⟩ =
      (⟨[("empty", [])], []⟩, none) ∧
    ∀ rest : List PhaseConfig,
      run_phases oracleAllOk
          ({ name := "empty", tools := [], critical := false,
             min_success := 3 } :: rest) ⟨[], []⟩ =
        run_phases oracleAllOk rest ⟨[("empty", [])], []⟩) :=
  ⟨rfl, claim5_empty_phase_vacuous oracleAllOk
    { name := "empty", tools := [], critical := false, min_success := 3 }
    ⟨[], []⟩ rfl⟩

/-! ## Claim C6: task invocation is total and success ⇔ exit code 0 -/

/-- C6.  `run_tool_subprocess` is a total function of the process
behaviour: in every case — completion, timeout, or a raised launch
exception — it returns an outcome tuple rather than propagating, the
returned `success` flag equals the test `exit_code == 0`, and the
timeout and launch-failure branches return failure tuples with the
sentinel exit code −1. -/
theorem claim6_invoke_total_success_iff_exit_zero :
    (∀ (res : ProcResult) (t : Nat),
      (run_tool_subprocess res t).1 =
        ((run_tool_subprocess res t).2.2.2 == 0)) ∧
    (∀ t : Nat, run_tool_subprocess .timedOut t =
      (false, "", "Timed out after " ++ toString t ++ "s", -1)) ∧
    (∀ (e : String) (t : Nat),
      run_tool_subprocess (.raised e) t = (false, "", e, -1)) ∧
    (∀ (rc : Int) (out err : String) (t : Nat),
      run_tool_subprocess (.completed rc out err) t =
        ((rc == 0), out, err, rc)) := by
  refine ⟨fun res t => ?_, fun t => rfl, fun e t => rfl,
    fun rc out err t => rfl⟩
  cases res <;> rfl

/-! ## Claim C7: timeout outcome carries a distinguishable sentinel -/

/-- C7.  A timed-out task yields `success = false`, the sentinel exit
code −1 and the synthesized stderr message `"Timed out after <N>s"`,
and for a process that exited with a nonzero exit status (a positive
returncode, as opposed to the negative codes `subprocess` uses for
signal deaths) the reported exit code is preserved and differs from the
sentinel, so a timeout is distinguishable from an ordinary nonzero
exit. -/
theorem claim7_timeout_sentinel (t : Nat) (rc : Int) (out err : String)
    (hrc : 0 < rc) :
    run_tool_subprocess .timedOut t =
      (false, "", "Timed out after " ++ toString t ++ "s", -1) ∧
    (run_tool_subprocess (.completed rc out err) t).2.2.2 = rc ∧
    rc ≠ -1 ∧
    (run_tool_subprocess (.completed rc out err) t).1 = false := by
  refine ⟨rfl, rfl, by omega, ?_⟩
  simp only [run_tool_subprocess]
  exact beq_eq_false_iff_ne.mpr (by omega)

/-- Witness for C7 at timeout 5 and exit code 1. -/
theorem claim7_witness :
    (0 : Int) < 1 ∧
    (run_tool_subprocess .timedOut 5 =
      (false, "", "Timed out after " ++ toString 5 ++ "s", -1) ∧
    (run_tool_subprocess (.completed 1 "o" "e") 5).2.2.2 = 1 ∧
    (1 : Int) ≠ -1 ∧
    (run_tool_subprocess (.completed 1 "o" "e") 5).1 = false) :=
  ⟨by decide, claim7_timeout_sentinel 5 1 "o" "e" (by decide)⟩

/-! ## Claim C8: min_success above the task count (corrected) -/

/-- C8 counterexample.  A phase with one tool and `min_success = 2`
(so `min_success > len(tools)`), whose tool succeeds: the claim says
the threshold check necessarily fails whatever the outcomes are, but
the full-success branch (`successful == total`) is tested first and
bypasses the threshold comparison — the phase passes and the run
completes with exit code 0. -/
theorem claim8_counterexample :
    (run_phase oracleAllOk
        { name := "p8", tools := ["x"], min_success := 2 } ⟨[], []⟩).2 =
      none ∧
    run oracleAllOk [{ name := "p8", tools := ["x"], min_success := 2 }] =
      (⟨[("p8", [⟨"x", true⟩])], []⟩, 0) :=
  ⟨by decide, by decide⟩

/-- C8 as amended.  For a non-empty phase with
`min_success > len(tools)` whose strategy returned normally,
`run_phase` raises the threshold exception exactly when not every
collected outcome succeeded; when all of them succeeded the
`successful == total` branch bypasses the threshold comparison and the
phase passes, so the threshold is structurally unreachable only short
of full success (`min_success` is indeed never clamped). -/
theorem claim8_unreachable_threshold_unless_full_success (o : Oracle)
    (cfg : PhaseConfig) (st : RunnerState)
    (hne : cfg.tools ≠ [])
    (hms : cfg.tools.length < cfg.min_success)
    (hperm : cfg.parallel = true → (o.order cfg.tools).Perm cfg.tools)
    (hexc : (phase_strategy o cfg).exc = none) :
    (run_phase o cfg st).2.isSome = true ↔
      countSuccess (phase_strategy o cfg).results ≠ cfg.tools.length := by
  have hemp : cfg.tools.isEmpty = false := by
    simpa [List.isEmpty_iff] using hne
  have hlen := phase_strategy_length o cfg hperm hexc
  by_cases heq : countSuccess (phase_strategy o cfg).results =
      cfg.tools.length
  · simp [run_phase, hemp, hexc, heq]
  · have hle := countSuccess_le_length (phase_strategy o cfg).results
    have hlt : countSuccess (phase_strategy o cfg).results <
        cfg.min_success := by omega
    rw [run_phase_threshold_raise o cfg st hne hexc hlt heq]
    simp [heq]

/-- Witness for C8 at a concrete input. -/
theorem claim8_witness :
    (({ name := "p8w", tools := ["a"], critical := false,
        min_success := 5 } : PhaseConfig).tools ≠ []) ∧
    (({ name := "p8w", tools := ["a"], critical := false,
        min_success := 5 } : PhaseConfig).tools.length < 5) ∧
    ((run_phase oracleFailA
        { name := "p8w", tools := ["a"], critical := false,
          min_success := 5 } ⟨[], []⟩).2.isSome = true ↔
      countSuccess (phase_strategy oracleFailA
          { name := "p8w", tools := ["a"], critical := false,
            min_success := 5 }).results ≠
        (["a"] : List String).length) :=
  ⟨by decide, by decide,
    claim8_unreachable_threshold_unless_full_success oracleFailA
      { name := "p8w", tools := ["a"], critical := false,
        min_success := 5 } ⟨[], []⟩
      (by decide) (by decide) (by decide) (by decide)⟩

/-! ## Claim C9: the retry setting is inert -/

/-- Two phase configurations that agree on every field except possibly
`retry`. -/
def retryOnly (p q : PhaseConfig) : Prop :=
  q = { p with retry := q.retry }

theorem run_phases_retry_congr (o : Oracle) (ps qs : List PhaseConfig)
    (h : List.Forall₂ retryOnly ps qs) (st : RunnerState) :
    run_phases o ps st = run_phases o qs st := by
  induction h generalizing st with
  | nil => rfl
  | cons hpq hrest ih =>
    rename_i p q ps' qs'
    have hq : run_phase o q st = run_phase o p st := by
      rw [hpq]
      rfl
    simp only [run_phases, hq]
    cases hp2 : (run_phase o p st).2 with
    | none => exact ih _
    | some e => rfl

/-- C9.  The `retry` setting is never consumed by any execution path:
`run_phase` is literally invariant under changing `retry`, two runs whose
phase lists differ only in their `retry` values produce identical final
states and exit codes, and each strategy invokes every listed tool
exactly once (the result lists enumerate the listed tools one entry
each — sequential in declaration order, parallel in completion order —
so no invocation is ever repeated automatically). -/
theorem claim9_retry_is_inert :
    (∀ (o : Oracle) (cfg : PhaseConfig) (st : RunnerState) (r : Nat),
      run_phase o { cfg with retry := r } st = run_phase o cfg st) ∧
    (∀ (o : Oracle) (ps qs : List PhaseConfig),
      List.Forall₂ retryOnly ps qs → run o ps = run o qs) ∧
    (∀ (proc : String → ProcResult) (timeout : Nat) (tools : List String),
      (run_sequential proc timeout false tools).results.map
        (fun rr => rr.tool) = tools) ∧
    (∀ (o : Oracle) (tools : List String) (mw timeout : Nat),
      (run_parallel o tools mw timeout).results.map
        (fun rr => rr.tool) = o.order tools) := by
  refine ⟨fun o cfg st r => rfl, fun o ps qs h => ?_,
    run_sequential_noncritical_tools, fun o tools mw timeout => ?_⟩
  · unfold run
    rw [run_phases_retry_congr o ps qs h]
  · have hres : (run_parallel o tools mw timeout).results =
        (o.order tools).map (fun t => ⟨t, parSuccess o timeout t⟩) :=
      parCollect_fst o timeout (o.order tools)
    rw [hres, List.map_map]
    exact List.map_id' (o.order tools)

/-- Witness for C9: two one-phase runs differing only in `retry`. -/
theorem claim9_witness :
    List.Forall₂ retryOnly
      [{ name := "p", tools := ["a"], retry := 0 }]
      [{ name := "p", tools := ["a"], retry := 7 }] ∧
    run oracleFailA [{ name := "p", tools := ["a"], retry := 0 }] =
      run oracleFailA [{ name := "p", tools := ["a"], retry := 7 }] :=
  ⟨List.Forall₂.cons rfl List.Forall₂.nil,
    claim9_retry_is_inert.2.1 oracleFailA
      [{ name := "p", tools := ["a"], retry := 0 }]
      [{ name := "p", tools := ["a"], retry := 7 }]
      (List.Forall₂.cons rfl List.Forall₂.nil)⟩

/-! ## Claim C10: min_success = 0 makes the threshold unreachable -/

/-- C10.  For a phase with `min_success = 0` (which is the default both
in `DEFAULT_PHASE_SETTINGS` and in `run_phase`'s
`phase_config.get("min_success", 0)`, as the second conjunct records),
the threshold branch is unreachable — `successful ≥ 0` always holds —
and `run_phase` raises if and only if the phase is sequential with
`critical = true` and some listed tool's invocation fails: the
per-task fail-fast is the only abort path. -/
theorem claim10_min_success_zero_no_threshold_abort (o : Oracle)
    (cfg : PhaseConfig) (st : RunnerState)
    (hms : cfg.min_success = 0) :
    ((run_phase o cfg st).2.isSome = true ↔
      (cfg.parallel = false ∧ cfg.critical = true ∧
        ∃ t ∈ cfg.tools,
          (run_tool_subprocess (o.proc t) cfg.timeout).1 = false)) ∧
    ∀ (n : String) (ts : List String),
      ({ name := n, tools := ts } : PhaseConfig).min_success = 0 := by
  refine ⟨?_, fun n ts => rfl⟩
  by_cases hemp : cfg.tools = []
  · simp [run_phase, hemp]
  · by_cases hp : cfg.parallel = true
    · have hexc : (phase_strategy o cfg).exc = none := by
        simp [phase_strategy, hp, run_parallel]
      rw [run_phase_no_raise_of_threshold_ok o cfg st hemp hexc
        (by rw [hms]; exact Nat.zero_le _)]
      simp [hp]
    · have hpf : cfg.parallel = false := by
        cases h : cfg.parallel
        · rfl
        · exact absurd h hp
      by_cases hc : cfg.critical = true
      · have hstrat : phase_strategy o cfg =
            run_sequential o.proc cfg.timeout true cfg.tools := by
          simp [phase_strategy, hp, hc]
        cases hex : (phase_strategy o cfg).exc with
        | some e =>
          rw [run_phase_strategy_raise o cfg st e hemp hex]
          have hsome : (run_sequential o.proc cfg.timeout true
              cfg.tools).exc.isSome := by
            rw [← hstrat, hex]; rfl
          simp only [Option.isSome_some, true_iff, hpf, hc, true_and]
          exact (run_sequential_critical_exc_iff o.proc cfg.timeout
            cfg.tools).mp hsome
        | none =>
          rw [run_phase_no_raise_of_threshold_ok o cfg st hemp hex
            (by rw [hms]; exact Nat.zero_le _)]
          have hnone : ¬ (run_sequential o.proc cfg.timeout true
              cfg.tools).exc.isSome := by
            rw [← hstrat, hex]; simp
          have hnex : ¬ ∃ t ∈ cfg.tools,
              (run_tool_subprocess (o.proc t) cfg.timeout).1 = false :=
            fun hexi => hnone
              ((run_sequential_critical_exc_iff o.proc cfg.timeout
                cfg.tools).mpr hexi)
          simp [hpf, hc, hnex]
      · have hcf : cfg.critical = false := by
          cases h : cfg.critical
          · rfl
          · exact absurd h hc
        have hexc := phase_strategy_noncritical_exc o cfg hcf
        rw [run_phase_no_raise_of_threshold_ok o cfg st hemp hexc
          (by rw [hms]; exact Nat.zero_le _)]
        simp [hcf]

/-- Witness for C10 at a concrete input: a default-settings sequential
critical phase with one failing tool raises through the fail-fast path
(the only abort path when `min_success = 0`). -/
theorem claim10_witness :
    ({ name := "pz", tools := ["a"] } : PhaseConfig).min_success = 0 ∧
    (((run_phase oracleFailA { name := "pz", tools := ["a"] }
        ⟨[], []⟩).2.isSome = true ↔
      (({ name := "pz", tools := ["a"] } : PhaseConfig).parallel = false ∧
        ({ name := "pz", tools := ["a"] } : PhaseConfig).critical = true ∧
        ∃ t ∈ ({ name := "pz", tools := ["a"] } : PhaseConfig).tools,
          (run_tool_subprocess (oracleFailA.proc t)
            ({ name := "pz", tools := ["a"] } :
              PhaseConfig).timeout).1 = false)) ∧
    ∀ (n : String) (ts : List String),
      ({ name := n, tools := ts } : PhaseConfig).min_success = 0) :=
  ⟨rfl, claim10_min_success_zero_no_threshold_abort oracleFailA
    { name := "pz", tools := ["a"] } ⟨[], []⟩ rfl⟩

end Watflow
